import Mathlib

/-!
Shallow embedding of the authentication and session-lifecycle core of a
Flask/SQLAlchemy backend (login, refresh-token rotation, logout, password
change, request authentication and role authorization), together with
theorems checking the stated properties of that core.

Modelling conventions:
* Machine time is a `Nat` of UTC seconds; the code's timezone normalisation
  (naive datetimes treated as UTC) collapses to this single clock.
* A Python string in a token position is modelled by the inductive `Token`:
  a JWT either carries a signing secret and a payload, or is malformed.
  Signature verification succeeds exactly when the secrets coincide
  (one fixed algorithm; forging a signed token without the secret is taken
  as impossible).  This models the external PyJWT library's
  `encode`/`decode` contract; expiry checking in `decode` rejects a token
  whose `exp` is ≤ the current time, mirroring PyJWT's `_validate_exp`.
* The external bcrypt library is modelled by `HashString`: a hash string
  either parses as a bcrypt hash — which embeds the salt it was produced
  with and determines the password it hashes (digest collisions are
  ignored, which is bcrypt's working contract) — or it is unparsable, in
  which case `bcrypt.checkpw`/`bcrypt.hashpw` raise `ValueError("Invalid
  salt")`, as the library does.
* The relational store is a pair of lists in insertion order; SQLAlchemy's
  `Query.first()` is `List.find?`.  Fallible Python code is `Except`;
  each state-changing service operation returns its result together with
  the post-state (a rolled-back transaction returns the pre-state).
* Columns not consulted by any modelled operation (surrogate ids,
  created/updated timestamps) are omitted.
-/

namespace FullstackApp

/-- A JSON claim value as PyJWT hands it back: an integer or a string. -/
inductive ClaimVal where
  | vint (n : Int)
  | vstr (s : String)
deriving DecidableEq

/-- Python falsiness of a claim value: `not 0` and `not ""` are `True`. -/
def ClaimVal.falsy : ClaimVal → Bool
  | .vint n => n == 0
  | .vstr s => s == ""

/-- Python falsiness of `payload.get("user_id")`: absent or falsy value. -/
def optFalsy : Option ClaimVal → Bool
  | none => true
  | some v => v.falsy

/-- JWT claim set as built by the token issuer (`exp` in UTC seconds). -/
structure JwtPayload where
  user_id : Option ClaimVal
  email : Option String
  role : Option String
  jti : Option String
  exp : Nat
deriving DecidableEq

/-- The space of strings appearing in token position. -/
inductive Token where
  | signed (secret : String) (payload : JwtPayload)
  | malformed (s : String)
deriving DecidableEq

/-- Errors raised by `jwt.decode`. -/
inductive JwtErr where
  | expiredSignature
  | invalidToken
deriving DecidableEq

/-- Model of `jwt.decode(token, secret, algorithms=[...])` at time `now`. -/
def jwtDecode (secret : String) (now : Nat) : Token → Except JwtErr JwtPayload
  | .malformed _ => .error .invalidToken
  | .signed s p =>
    if s ≠ secret then .error .invalidToken
    else if p.exp ≤ now then .error .expiredSignature
    else .ok p

/-- Model of `jwt.encode(payload, secret, algorithm=...)`. -/
def jwtEncode (secret : String) (p : JwtPayload) : Token := .signed secret p

/-- The space of strings appearing in password-hash position (see header). -/
inductive HashString where
  | bcrypt (salt : Nat) (pw : String)
  | unparsable (s : String)
deriving DecidableEq

/-- Python-level errors surfaced by the modelled operations. -/
inductive PyErr where
  | valueError (msg : String)
  | invalidPasswordError (msg : String)
  | passwordServiceError (msg : String)
  | unauthorized (msg : String)
  | forbidden (msg : String)
deriving DecidableEq

/-- Model of `bcrypt.hashpw(password, salt)`: the output embeds the salt. -/
def bcrypt_hashpw (password : String) (salt : Nat) : HashString :=
  .bcrypt salt password

/-- Model of `bcrypt.checkpw(password, hash)`: recompute with the embedded
salt and compare; an unparsable hash raises `ValueError("Invalid salt")`. -/
def bcrypt_checkpw (password : String) : HashString → Except PyErr Bool
  | .bcrypt _ pw => .ok (password == pw)
  | .unparsable _ => .error (.valueError "Invalid salt")

/-- `app/utils/password.py::hash_password`; the fresh salt drawn from
`bcrypt.gensalt()` is made an explicit argument. -/
def hash_password (password : String) (salt : Nat) : HashString :=
  bcrypt_hashpw password salt

/-- `app/utils/password.py::verify_password` (no exception handling). -/
def verify_password (password : String) (password_hash : HashString) :
    Except PyErr Bool :=
  bcrypt_checkpw password password_hash

instance {ε α : Type} [DecidableEq ε] [DecidableEq α] : DecidableEq (Except ε α) := fun x y =>
  match x, y with
  | .ok a, .ok b =>
    if h : a = b then .isTrue (by rw [h]) else .isFalse (by intro he; cases he; exact h rfl)
  | .error a, .error b =>
    if h : a = b then .isTrue (by rw [h]) else .isFalse (by intro he; cases he; exact h rfl)
  | .ok _, .error _ => .isFalse (by intro he; cases he)
  | .error _, .ok _ => .isFalse (by intro he; cases he)

/-- A row of the `users` table. -/
structure UserRec where
  id : Int
  email : String
  password_hash : HashString
  role : String
  name : Option String
deriving DecidableEq

/-- A row of the `refresh_tokens` table. -/
structure RefreshTokenRec where
  token : Token
  user_id : Int
  expires_at : Nat
  is_revoked : Bool
deriving DecidableEq

/-- The relational store, rows in insertion order. -/
structure AuthState where
  users : List UserRec
  tokens : List RefreshTokenRec
deriving DecidableEq

/-- `UserRepository.find_by_email`. -/
def find_by_email (st : AuthState) (email : String) : Option UserRec :=
  st.users.find? (fun u => u.email == email)

/-- `UserRepository.find_by_id`. -/
def find_by_id (st : AuthState) (user_id : Int) : Option UserRec :=
  st.users.find? (fun u => u.id == user_id)

/-- `UserRepository.find_by_id` applied to a raw JWT claim value, as the
refresh path does.  A string claim does not match the integer id column
(PostgreSQL comparison semantics). -/
def find_by_claim (st : AuthState) : Option ClaimVal → Option UserRec
  | some (.vint n) => find_by_id st n
  | _ => none

/-- `RefreshTokenRepository.find_by_token`. -/
def find_by_token (st : AuthState) (t : Token) : Option RefreshTokenRec :=
  st.tokens.find? (fun r => r.token == t)

/-- Helper for `RefreshTokenRepository.revoke`: set `is_revoked` on the
first row whose token string matches (the token column is unique, so at
most one row matches). -/
def revokeList : List RefreshTokenRec → Token → List RefreshTokenRec
  | [], _ => []
  | r :: rs, t =>
    if r.token == t then { r with is_revoked := true } :: rs
    else r :: revokeList rs t

/-- `RefreshTokenRepository.revoke` (state effect). -/
def revoke (st : AuthState) (t : Token) : AuthState :=
  { st with tokens := revokeList st.tokens t }

/-- `RefreshTokenRepository.create`: insert a fresh, unrevoked row. -/
def createToken (st : AuthState) (t : Token) (uid : Int) (exp : Nat) :
    AuthState :=
  { st with tokens :=
      st.tokens ++ [{ token := t, user_id := uid, expires_at := exp, is_revoked := false }] }

/-- `RefreshTokenRepository.revoke_all_for_user`. -/
def revoke_all_for_user (st : AuthState) (uid : Int) : AuthState :=
  { st with tokens := st.tokens.map (fun r =>
      if r.user_id == uid && !r.is_revoked then { r with is_revoked := true } else r) }

/-- JWT configuration read from the environment in `AuthService.__init__`. -/
structure Config where
  jwt_secret : String
  access_token_expire_minutes : Nat
  refresh_token_expire_days : Nat
deriving DecidableEq

def accessTtlSecs (cfg : Config) : Nat := cfg.access_token_expire_minutes * 60

def refreshTtlSecs (cfg : Config) : Nat := cfg.refresh_token_expire_days * 86400

/-- The uniform login failure message (wrong email or wrong password). -/
def jpLoginFail : String := "メールアドレスまたはパスワードが間違っています"

/-- The uniform refresh failure message. -/
def jpTokenInvalid : String := "リフレッシュトークンが無効です"

/-- `AuthService._generate_access_token`. -/
def generate_access_token (cfg : Config) (now : Nat) (u : UserRec) : Token :=
  jwtEncode cfg.jwt_secret
    { user_id := some (.vint u.id), email := some u.email, role := some u.role,
      jti := none, exp := now + accessTtlSecs cfg }

/-- `AuthService._generate_refresh_token`; the fresh `jti` drawn from
`uuid.uuid4()` is made an explicit argument. -/
def generate_refresh_token (cfg : Config) (now : Nat) (jti : String)
    (uid : Int) : Token :=
  jwtEncode cfg.jwt_secret
    { user_id := some (.vint uid), email := none, role := none,
      jti := some jti, exp := now + refreshTtlSecs cfg }

/-- `AuthService.login`: returns `(result, post-state)`.  On success the
result carries the user record and the access and refresh tokens. -/
def login (cfg : Config) (now : Nat) (jti : String) (st : AuthState)
    (email password : String) :
    Except PyErr (UserRec × Token × Token) × AuthState :=
  match find_by_email st email with
  | none => (.error (.valueError jpLoginFail), st)
  | some user =>
    match verify_password password user.password_hash with
    | .error e => (.error e, st)
    | .ok false => (.error (.valueError jpLoginFail), st)
    | .ok true =>
      let access_token := generate_access_token cfg now user
      let refresh_token := generate_refresh_token cfg now jti user.id
      (.ok (user, access_token, refresh_token),
        createToken st refresh_token user.id (now + refreshTtlSecs cfg))

/-- `AuthService.refresh_access_token`: returns `(result, post-state)`.
The two `except jwt.*` handlers collapse both decode failures to the
uniform message; the falsy-`user_id` branch raises a `ValueError` whose
message ("Invalid refresh token") the handlers do not touch. -/
def refresh_access_token (cfg : Config) (now : Nat) (jti : String)
    (st : AuthState) (refresh_token : Token) :
    Except PyErr (Token × Token × UserRec) × AuthState :=
  match jwtDecode cfg.jwt_secret now refresh_token with
  | .error _ => (.error (.valueError jpTokenInvalid), st)
  | .ok payload =>
    if optFalsy payload.user_id then
      (.error (.valueError "Invalid refresh token"), st)
    else
      match find_by_token st refresh_token with
      | none => (.error (.valueError jpTokenInvalid), st)
      | some token_record =>
        if token_record.is_revoked then
          (.error (.valueError jpTokenInvalid), st)
        else if token_record.expires_at < now then
          (.error (.valueError jpTokenInvalid), st)
        else
          match find_by_claim st payload.user_id with
          | none => (.error (.valueError jpTokenInvalid), st)
          | some user =>
            let new_access_token := generate_access_token cfg now user
            let new_refresh_token := generate_refresh_token cfg now jti user.id
            let st1 := revoke st refresh_token
            (.ok (new_access_token, new_refresh_token, user),
              createToken st1 new_refresh_token user.id (now + refreshTtlSecs cfg))

/-- `AuthService.logout`: best-effort revoke. -/
def logout (st : AuthState) (refresh_token : Token) : AuthState :=
  revoke st refresh_token

/-- Message of `InvalidPasswordError`. -/
def jpWrongCurrent : String := "現在のパスワードが間違っています"

/-- `PasswordService.change_password`: returns `(result, post-state)`.
Every error path rolls the transaction back, so the pre-state is returned
unchanged there; an exception escaping `verify_password` is caught by the
generic handler and re-raised as `PasswordServiceError`.  The user id is a
primary key, so updating every row with the found user's id updates
exactly the found row. -/
def change_password (st : AuthState) (user_id : Int)
    (current_password new_password : String) (salt : Nat) :
    Except PyErr Unit × AuthState :=
  match find_by_id st user_id with
  | none => (.error (.invalidPasswordError jpWrongCurrent), st)
  | some user =>
    match verify_password current_password user.password_hash with
    | .error _ => (.error (.passwordServiceError "Failed to change password"), st)
    | .ok false => (.error (.invalidPasswordError jpWrongCurrent), st)
    | .ok true =>
      let nh := hash_password new_password salt
      (.ok (), { st with users := st.users.map (fun u =>
        if u.id == user.id then { u with password_hash := nh } else u) })

/-- The identity context `require_auth` stores on Flask's `g`. -/
structure GContext where
  user_id : ClaimVal
  user_role : String
deriving DecidableEq

def jpAuthRequired : String := "認証が必要です"

def jpAccessExpired : String := "トークンの有効期限が切れています"

def jpForbidden : String := "このリソースにアクセスする権限がありません"

/-- `app/utils/auth_decorator.py::require_auth`: validate the access-token
cookie and establish the identity context. -/
def require_auth (cfg : Config) (now : Nat) (access_token : Option Token) :
    Except PyErr GContext :=
  match access_token with
  | none => .error (.unauthorized jpAuthRequired)
  | some tok =>
    match jwtDecode cfg.jwt_secret now tok with
    | .error .expiredSignature => .error (.unauthorized jpAccessExpired)
    | .error .invalidToken => .error (.unauthorized jpAuthRequired)
    | .ok payload =>
      match payload.user_id with
      | none => .error (.unauthorized jpAuthRequired)
      | some v =>
        if v.falsy then .error (.unauthorized jpAuthRequired)
        else .ok { user_id := v, user_role := payload.role.getD "user" }

/-- `app/utils/auth_decorator.py::require_role`: gate on the established
identity context (`none` models a missing `g.user_role`). -/
def require_role (required_role : String) (g : Option GContext) :
    Except PyErr Unit :=
  match g with
  | none => .error (.unauthorized jpAuthRequired)
  | some ctx =>
    if ctx.user_role != required_role then .error (.forbidden jpForbidden)
    else .ok ()

/-- The state-changing core operations, for invariants quantified over
every operation. -/
inductive CoreOp where
  | loginOp (now : Nat) (jti : String) (email password : String)
  | refreshOp (now : Nat) (jti : String) (tok : Token)
  | logoutOp (tok : Token)
  | revokeAllOp (uid : Int)
  | changePasswordOp (uid : Int) (current new : String) (salt : Nat)

/-- State effect of a core operation. -/
def applyOp (cfg : Config) (op : CoreOp) (st : AuthState) : AuthState :=
  match op with
  | .loginOp now jti e p => (login cfg now jti st e p).2
  | .refreshOp now jti t => (refresh_access_token cfg now jti st t).2
  | .logoutOp t => logout st t
  | .revokeAllOp uid => revoke_all_for_user st uid
  | .changePasswordOp uid c n s => (change_password st uid c n s).2

/-- Row-wise monotonicity between two token tables: every row keeps its
position, token string, owner and expiry, and `is_revoked` never returns
from `true` to `false`. -/
def TokensMono (l l' : List RefreshTokenRec) : Prop :=
  ∀ (i : Nat) (r : RefreshTokenRec), l[i]? = some r →
  ∃ r' : RefreshTokenRec, l'[i]? = some r' ∧
    r'.token = r.token ∧ r'.user_id = r.user_id ∧
    r'.expires_at = r.expires_at ∧ (r.is_revoked = true → r'.is_revoked = true)

/-! ### Concrete fixtures used by witnesses -/

/-- A small JWT configuration. -/
def wCfg : Config := { jwt_secret := "secret", access_token_expire_minutes := 1440, refresh_token_expire_days := 7 }

/-- A stored user whose password is `password123` (hash salt 5). -/
def wUser : UserRec :=
  { id := 1, email := "user@example.com", password_hash := .bcrypt 5 "password123",
    role := "user", name := none }

/-- A refresh token minted for `wUser` at time 0. -/
def wTok : Token := generate_refresh_token wCfg 0 "jti0" 1

/-- The persisted row for `wTok`. -/
def wRec : RefreshTokenRec := { token := wTok, user_id := 1, expires_at := 604800, is_revoked := false }

/-- Store holding `wUser` and the outstanding `wTok`. -/
def wSt : AuthState := { users := [wUser], tokens := [wRec] }

/-- The row for `wTok`, already revoked. -/
def wRecRevoked : RefreshTokenRec :=
  { token := wTok, user_id := 1, expires_at := 604800, is_revoked := true }

/-- Store holding `wUser` and the revoked row for `wTok`. -/
def wStRevoked : AuthState := { users := [wUser], tokens := [wRecRevoked] }

/-! ### Claim theorems -/

/-- C3: No account enumeration at login — an email matching no user and an
existing email with a non-verifying password both fail with a `ValueError`
carrying the identical message, so the two causes are indistinguishable. -/
theorem login_no_account_enumeration (cfg : Config) (now1 now2 : Nat)
    (jti1 jti2 : String) (st : AuthState) (e1 p1 e2 p2 : String) (u : UserRec)
    (h1 : find_by_email st e1 = none)
    (h2 : find_by_email st e2 = some u)
    (h3 : verify_password p2 u.password_hash = .ok false) :
    (login cfg now1 jti1 st e1 p1).1 = .error (.valueError jpLoginFail) ∧
    (login cfg now2 jti2 st e2 p2).1 = .error (.valueError jpLoginFail) := by
  constructor
  · simp [login, h1]
  · simp [login, h2, h3]

/-- Witness for C3 at the concrete store `wSt`. -/
theorem login_no_account_enumeration_witness :
    (login wCfg 3 "j1" wSt "unknown@x" "anything").1 = .error (.valueError jpLoginFail) ∧
    (login wCfg 4 "j2" wSt "user@example.com" "wrongPassword").1 = .error (.valueError jpLoginFail) :=
  login_no_account_enumeration wCfg 3 4 "j1" "j2" wSt "unknown@x" "anything"
    "user@example.com" "wrongPassword" wUser (by decide) (by decide) (by decide)

/-- C4: A refresh token whose persisted `expires_at` lies in the past at
call time fails with the uniform `TokenInvalid` error even when the row was
never revoked (and the store is left unchanged). -/
theorem refresh_expired_record_fails (cfg : Config) (now : Nat) (jti : String)
    (st : AuthState) (t : Token) (p : JwtPayload) (rec : RefreshTokenRec)
    (hdec : jwtDecode cfg.jwt_secret now t = .ok p)
    (hfalsy : optFalsy p.user_id = false)
    (hfind : find_by_token st t = some rec)
    (hrev : rec.is_revoked = false)
    (hexp : rec.expires_at < now) :
    refresh_access_token cfg now jti st t = (.error (.valueError jpTokenInvalid), st) := by
  simp [refresh_access_token, hdec, hfalsy, hfind, hrev, hexp]

/-- Witness for C4: record expired at time 5, used at time 10, never revoked. -/
theorem refresh_expired_record_fails_witness :
    refresh_access_token wCfg 10 "j" { users := [wUser], tokens := [{ token := wTok, user_id := 1, expires_at := 5, is_revoked := false }] } wTok =
      (.error (.valueError jpTokenInvalid), { users := [wUser], tokens := [{ token := wTok, user_id := 1, expires_at := 5, is_revoked := false }] }) :=
  refresh_expired_record_fails wCfg 10 "j" _ wTok
    { user_id := some (.vint 1), email := none, role := none, jti := some "jti0", exp := 604800 }
    { token := wTok, user_id := 1, expires_at := 5, is_revoked := false }
    (by decide) (by decide) (by decide) (by decide) (by decide)

/-- C5: The role gate fails `Unauthorized` when no identity context was
established, fails `Forbidden` when the established role differs from the
required one, and passes through when it matches. -/
theorem require_role_gate (required : String) (ctx : GContext) :
    require_role required none = .error (.unauthorized jpAuthRequired) ∧
    (ctx.user_role ≠ required →
      require_role required (some ctx) = .error (.forbidden jpForbidden)) ∧
    (ctx.user_role = required → require_role required (some ctx) = .ok ()) := by
  refine ⟨rfl, ?_, ?_⟩ <;> intro h <;> simp [require_role, h]

/-- Witness for C5: role `user` against required `admin` is forbidden;
`admin` against `admin` passes. -/
theorem require_role_gate_witness :
    require_role "admin" (some { user_id := .vint 1, user_role := "user" }) = .error (.forbidden jpForbidden) ∧
    require_role "admin" (some { user_id := .vint 1, user_role := "admin" }) = .ok () :=
  ⟨(require_role_gate "admin" { user_id := .vint 1, user_role := "user" }).2.1 (by decide),
   (require_role_gate "admin" { user_id := .vint 1, user_role := "admin" }).2.2 rfl⟩

/-- C6 counterexample: `verify_password` against a string that does not
parse as a bcrypt hash propagates the library's `ValueError("Invalid
salt")` instead of returning `false`, refuting "returns a boolean (false
for unparsable formats) and never raises". -/
theorem verify_password_raises_on_unparsable_hash :
    verify_password "password123" (.unparsable "invalid_hash") =
      .error (.valueError "Invalid salt") := rfl

/-- C6 amended: `verify_password` returns a boolean for every parsable
bcrypt hash, and raises `ValueError("Invalid salt")` for every unparsable
hash string. -/
theorem verify_password_parsable_total (password : String) (h : HashString) :
    (∀ salt pw, h = .bcrypt salt pw → verify_password password h = .ok (password == pw)) ∧
    (∀ s, h = .unparsable s → verify_password password h = .error (.valueError "Invalid salt")) := by
  constructor
  · intro salt pw hh; subst hh; rfl
  · intro s hh; subst hh; rfl

/-- Witness for the amended C6. -/
theorem verify_password_parsable_total_witness :
    verify_password "a" (.bcrypt 3 "a") = .ok true ∧
    verify_password "b" (.unparsable "zzz") = .error (.valueError "Invalid salt") :=
  ⟨by
    have h := (verify_password_parsable_total "a" (.bcrypt 3 "a")).1 3 "a" rfl
    simpa using h,
   (verify_password_parsable_total "b" (.unparsable "zzz")).2 "zzz" rfl⟩

/-- C9: Hashing the same password with two distinct fresh salts yields
unequal hash strings, yet verification succeeds against both. -/
theorem hash_password_salted_roundtrip (p : String) (s1 s2 : Nat) (hne : s1 ≠ s2) :
    hash_password p s1 ≠ hash_password p s2 ∧
    verify_password p (hash_password p s1) = .ok true ∧
    verify_password p (hash_password p s2) = .ok true := by
  refine ⟨?_, ?_, ?_⟩
  · intro h
    simp only [hash_password, bcrypt_hashpw, HashString.bcrypt.injEq] at h
    exact hne h.1
  · simp [verify_password, hash_password, bcrypt_hashpw, bcrypt_checkpw]
  · simp [verify_password, hash_password, bcrypt_hashpw, bcrypt_checkpw]

/-- Witness for C9 at salts 0 and 1. -/
theorem hash_password_salted_roundtrip_witness :
    hash_password "password123" 0 ≠ hash_password "password123" 1 ∧
    verify_password "password123" (hash_password "password123" 0) = .ok true ∧
    verify_password "password123" (hash_password "password123" 1) = .ok true :=
  hash_password_salted_roundtrip "password123" 0 1 (by decide)

/-- C10: A correctly signed, unexpired token whose `user_id` claim is
present but falsy (integer 0 or empty string) is rejected: the request
authenticator fails `Unauthorized` with the same message as for an absent
claim, refresh fails with the same `ValueError` as for an absent claim,
and no identity context with a falsy user id is ever established. -/
theorem falsy_user_id_rejected (cfg : Config) (now : Nat) (tok : Token)
    (p : JwtPayload) (v : ClaimVal)
    (hdec : jwtDecode cfg.jwt_secret now tok = .ok p)
    (hv : p.user_id = some v) (hfalsy : v.falsy = true) :
    require_auth cfg now (some tok) = .error (.unauthorized jpAuthRequired) ∧
    (∀ st jti, refresh_access_token cfg now jti st tok =
      (.error (.valueError "Invalid refresh token"), st)) ∧
    (∀ (cfg2 : Config) (now2 : Nat) (t2 : Option Token) (ctx : GContext),
      require_auth cfg2 now2 t2 = .ok ctx → ctx.user_id.falsy = false) := by
  refine ⟨?_, ?_, ?_⟩
  · simp [require_auth, hdec, hv, hfalsy]
  · intro st jti
    simp [refresh_access_token, hdec, optFalsy, hv, hfalsy]
  · intro cfg2 now2 t2 ctx hok
    cases t2 with
    | none => simp [require_auth] at hok
    | some tok2 =>
      simp only [require_auth] at hok
      split at hok
      · simp at hok
      · simp at hok
      · split at hok
        · simp at hok
        · split at hok
          · simp at hok
          · rename_i hf
            simp only [Except.ok.injEq] at hok
            subst hok
            simpa using hf

/-- Witness for C10 with a signed token carrying `user_id = 0`. -/
theorem falsy_user_id_rejected_witness :
    require_auth wCfg 0 (some (.signed "secret" { user_id := some (.vint 0), email := none, role := none, jti := none, exp := 10 })) =
      .error (.unauthorized jpAuthRequired) :=
  (falsy_user_id_rejected wCfg 0 _ { user_id := some (.vint 0), email := none, role := none, jti := none, exp := 10 }
    (.vint 0) (by decide) rfl (by decide)).1

/-- C8: `change_password` with a wrong current password — or a user id
matching no user — fails with `InvalidPasswordError` and returns the store
unchanged, so a subsequent login with the original password still
succeeds. -/
theorem change_password_wrong_current_atomic (cfg : Config)
    (st : AuthState) (uid : Int) (cur newpw : String) (salt : Nat)
    (hmode : find_by_id st uid = none ∨
      ∃ u, find_by_id st uid = some u ∧ verify_password cur u.password_hash = .ok false) :
    change_password st uid cur newpw salt = (.error (.invalidPasswordError jpWrongCurrent), st) ∧
    (∀ (now : Nat) (jti : String) (u : UserRec) (orig : String),
      find_by_email st u.email = some u →
      verify_password orig u.password_hash = .ok true →
      (login cfg now jti ((change_password st uid cur newpw salt).2) u.email orig).1 =
        .ok (u, generate_access_token cfg now u, generate_refresh_token cfg now jti u.id)) := by
  have hfail : change_password st uid cur newpw salt =
      (.error (.invalidPasswordError jpWrongCurrent), st) := by
    rcases hmode with hnone | ⟨u, hu, hv⟩
    · simp [change_password, hnone]
    · simp [change_password, hu, hv]
  refine ⟨hfail, ?_⟩
  intro now jti u orig hfind hverify
  rw [hfail]
  simp [login, hfind, hverify]

/-- Witness for C8: wrong current password on `wSt`, then login with the
original password succeeds. -/
theorem change_password_wrong_current_atomic_witness :
    change_password wSt 1 "wrongOld" "NewPass123" 9 = (.error (.invalidPasswordError jpWrongCurrent), wSt) ∧
    (login wCfg 2 "j9" ((change_password wSt 1 "wrongOld" "NewPass123" 9).2) "user@example.com" "password123").1 =
      .ok (wUser, generate_access_token wCfg 2 wUser, generate_refresh_token wCfg 2 "j9" 1) := by
  have h := change_password_wrong_current_atomic wCfg wSt 1 "wrongOld" "NewPass123" 9
    (Or.inr ⟨wUser, by decide, by decide⟩)
  exact ⟨h.1, h.2 2 "j9" wUser "password123" (by decide) (by decide)⟩

/-- C7: Every failure of refresh other than the falsy-`user_id` guard —
i.e. decode failure (malformed, wrongly signed, or JWT-expired token),
unknown token string, revoked record, passed persisted expiry, or absent
owning user — surfaces as a `ValueError` with the single uniform message,
revealing nothing about which sub-case occurred. -/
theorem refresh_uniform_error (cfg : Config) (now : Nat) (jti : String)
    (st : AuthState) (t : Token) (e : PyErr) (st' : AuthState)
    (hmode : ∀ p, jwtDecode cfg.jwt_secret now t = .ok p → optFalsy p.user_id = false)
    (h : refresh_access_token cfg now jti st t = (.error e, st')) :
    e = .valueError jpTokenInvalid := by
  revert h
  unfold refresh_access_token
  split
  · intro h
    simp only [Prod.mk.injEq, Except.error.injEq] at h
    exact h.1.symm
  · rename_i payload heq
    split
    · rename_i hfalsy
      intro _
      exact absurd (hmode payload heq) (by simp [hfalsy])
    · split
      · intro h
        simp only [Prod.mk.injEq, Except.error.injEq] at h
        exact h.1.symm
      · split
        · intro h
          simp only [Prod.mk.injEq, Except.error.injEq] at h
          exact h.1.symm
        · split
          · intro h
            simp only [Prod.mk.injEq, Except.error.injEq] at h
            exact h.1.symm
          · split
            · intro h
              simp only [Prod.mk.injEq, Except.error.injEq] at h
              exact h.1.symm
            · intro h
              simp at h

/-- Witness for C7 at a malformed token. -/
theorem refresh_uniform_error_witness :
    (PyErr.valueError jpTokenInvalid) = .valueError jpTokenInvalid :=
  refresh_uniform_error wCfg 0 "j" wSt (.malformed "garbage") (.valueError jpTokenInvalid) wSt
    (fun p hp => by simp [jwtDecode] at hp) (by decide)

/-! ### Monotonicity infrastructure for revocation terminality -/

theorem tokensMono_refl (l : List RefreshTokenRec) : TokensMono l l := by
  intro i r h
  exact ⟨r, h, rfl, rfl, rfl, fun hr => hr⟩

theorem tokensMono_trans {l1 l2 l3 : List RefreshTokenRec}
    (h12 : TokensMono l1 l2) (h23 : TokensMono l2 l3) : TokensMono l1 l3 := by
  intro i r h
  obtain ⟨r', h', ht, hu, he, hm⟩ := h12 i r h
  obtain ⟨r'', h'', ht', hu', he', hm'⟩ := h23 i r' h'
  exact ⟨r'', h'', ht'.trans ht, hu'.trans hu, he'.trans he, fun hr => hm' (hm hr)⟩

theorem tokensMono_append (l xs : List RefreshTokenRec) : TokensMono l (l ++ xs) := by
  intro i r h
  have hlen : i < l.length := (List.getElem?_eq_some.mp h).1
  refine ⟨r, ?_, rfl, rfl, rfl, fun hr => hr⟩
  rw [List.getElem?_append, if_pos hlen]
  exact h

theorem tokensMono_cons {a b : RefreshTokenRec} {as bs : List RefreshTokenRec}
    (ht : b.token = a.token) (hu : b.user_id = a.user_id)
    (he : b.expires_at = a.expires_at)
    (hm : a.is_revoked = true → b.is_revoked = true)
    (htail : TokensMono as bs) : TokensMono (a :: as) (b :: bs) := by
  intro i r h
  cases i with
  | zero =>
    rw [List.getElem?_cons_zero, Option.some_inj] at h
    subst h
    exact ⟨b, List.getElem?_cons_zero, ht, hu, he, hm⟩
  | succ n =>
    rw [List.getElem?_cons_succ] at h
    obtain ⟨r', h', rest⟩ := htail n r h
    exact ⟨r', by rw [List.getElem?_cons_succ]; exact h', rest⟩

theorem tokensMono_tail {a b : RefreshTokenRec} {as bs : List RefreshTokenRec}
    (h : TokensMono (a :: as) (b :: bs)) : TokensMono as bs := by
  intro i r h0
  obtain ⟨r', hr', rest⟩ := h (i + 1) r (by rw [List.getElem?_cons_succ]; exact h0)
  rw [List.getElem?_cons_succ] at hr'
  exact ⟨r', hr', rest⟩

theorem tokensMono_revokeList (l : List RefreshTokenRec) (t : Token) :
    TokensMono l (revokeList l t) := by
  induction l with
  | nil => intro i r h; simp at h
  | cons a as ih =>
    unfold revokeList
    by_cases hc : (a.token == t) = true
    · rw [if_pos hc]
      exact tokensMono_cons rfl rfl rfl (fun _ => rfl) (tokensMono_refl as)
    · rw [if_neg hc]
      exact tokensMono_cons rfl rfl rfl (fun h => h) ih

theorem tokensMono_revokeAll (l : List RefreshTokenRec) (uid : Int) :
    TokensMono l (l.map (fun r =>
      if r.user_id == uid && !r.is_revoked then { r with is_revoked := true } else r)) := by
  intro i r h
  refine ⟨if r.user_id == uid && !r.is_revoked then { r with is_revoked := true } else r,
    ?_, ?_, ?_, ?_, ?_⟩
  · rw [List.getElem?_map, h, Option.map_some']
  · split <;> rfl
  · split <;> rfl
  · split <;> rfl
  · intro hr
    split
    · rfl
    · exact hr

/-- State effect of every core operation is row-wise monotone on the token
table: rows keep their position, token string, owner and expiry, and
`is_revoked` never returns to `false`. -/
theorem applyOp_tokensMono (cfg : Config) (op : CoreOp) (st : AuthState) :
    TokensMono st.tokens (applyOp cfg op st).tokens := by
  cases op with
  | loginOp now jti e p =>
    show TokensMono st.tokens (login cfg now jti st e p).2.tokens
    unfold login
    split
    · exact tokensMono_refl _
    · split
      · exact tokensMono_refl _
      · exact tokensMono_refl _
      · exact tokensMono_append _ _
  | refreshOp now jti t =>
    show TokensMono st.tokens (refresh_access_token cfg now jti st t).2.tokens
    unfold refresh_access_token
    split
    · exact tokensMono_refl _
    · split
      · exact tokensMono_refl _
      · split
        · exact tokensMono_refl _
        · split
          · exact tokensMono_refl _
          · split
            · exact tokensMono_refl _
            · split
              · exact tokensMono_refl _
              · exact tokensMono_trans (tokensMono_revokeList _ _) (tokensMono_append _ _)
  | logoutOp t => exact tokensMono_revokeList _ _
  | revokeAllOp uid => exact tokensMono_revokeAll _ _
  | changePasswordOp uid c n s =>
    show TokensMono st.tokens (change_password st uid c n s).2.tokens
    unfold change_password
    split
    · exact tokensMono_refl _
    · split
      · exact tokensMono_refl _
      · exact tokensMono_refl _
      · exact tokensMono_refl _

/-- The first row matching a token string survives a monotone table change
with the same token and a monotone `is_revoked`. -/
theorem find?_token_mono {l l' : List RefreshTokenRec} (h : TokensMono l l')
    (t : Token) (r : RefreshTokenRec)
    (hf : l.find? (fun x => x.token == t) = some r) :
    ∃ r', l'.find? (fun x => x.token == t) = some r' ∧
      r'.token = r.token ∧ (r.is_revoked = true → r'.is_revoked = true) := by
  induction l generalizing l' with
  | nil => simp at hf
  | cons a as ih =>
    obtain ⟨b, hb, hbt, _, _, hbm⟩ := h 0 a List.getElem?_cons_zero
    cases l' with
    | nil => simp at hb
    | cons b' bs =>
      rw [List.getElem?_cons_zero, Option.some_inj] at hb
      subst hb
      by_cases hc : (a.token == t) = true
      · simp only [List.find?_cons, hc, Option.some_inj] at hf
        subst hf
        have hcb : (b'.token == t) = true := by rw [hbt]; exact hc
        refine ⟨b', ?_, hbt, hbm⟩
        simp only [List.find?_cons, hcb]
      · have hcf : (a.token == t) = false := by simpa using hc
        have hcb : (b'.token == t) = false := by rw [hbt]; exact hcf
        simp only [List.find?_cons, hcf] at hf
        obtain ⟨r', hr', rest⟩ := ih (tokensMono_tail h) hf
        refine ⟨r', ?_, rest⟩
        simp only [List.find?_cons, hcb]
        exact hr'

/-- A refresh presenting a token whose first matching row is revoked never
succeeds. -/
theorem refresh_no_ok_of_revoked (cfg : Config) (now : Nat) (jti : String)
    (st : AuthState) (t : Token) (rec : RefreshTokenRec)
    (hfind : find_by_token st t = some rec) (hrev : rec.is_revoked = true) :
    ∀ (out : Token × Token × UserRec) (st2 : AuthState),
      refresh_access_token cfg now jti st t ≠ (.ok out, st2) := by
  intro out st2
  unfold refresh_access_token
  split
  · intro h; simp at h
  · split
    · intro h; simp at h
    · rw [hfind]
      simp [hrev]

/-- C2: Revocation is terminal — every core operation (login, refresh
rotation, logout, revoke-all-for-user, password change) leaves the token
table row-wise monotone (`is_revoked` never returns from `true` to
`false`), and any token whose matching row is revoked still matches a
revoked row after the operation, so no refresh presenting it can ever
succeed. -/
theorem revocation_terminal (cfg : Config) (op : CoreOp) (st : AuthState) :
    TokensMono st.tokens (applyOp cfg op st).tokens ∧
    (∀ (t : Token) (r : RefreshTokenRec),
      find_by_token st t = some r → r.is_revoked = true →
      ∃ r', find_by_token (applyOp cfg op st) t = some r' ∧ r'.is_revoked = true ∧
        ∀ (now : Nat) (jti : String) (out : Token × Token × UserRec) (st2 : AuthState),
          refresh_access_token cfg now jti (applyOp cfg op st) t ≠ (.ok out, st2)) := by
  refine ⟨applyOp_tokensMono cfg op st, ?_⟩
  intro t r hfind hrev
  obtain ⟨r', hr', _, hmono⟩ := find?_token_mono (applyOp_tokensMono cfg op st) t r hfind
  have hrev' := hmono hrev
  exact ⟨r', hr', hrev',
    fun now jti out st2 => refresh_no_ok_of_revoked cfg now jti _ t r' hr' hrev' out st2⟩

/-- Witness for C2: after a further logout, the revoked row for `wTok`
stays revoked and refresh with `wTok` cannot succeed. -/
theorem revocation_terminal_witness :
    ∃ r', find_by_token (applyOp wCfg (.logoutOp wTok) wStRevoked) wTok = some r' ∧
      r'.is_revoked = true ∧
      ∀ (now : Nat) (jti : String) (out : Token × Token × UserRec) (st2 : AuthState),
        refresh_access_token wCfg now jti (applyOp wCfg (.logoutOp wTok) wStRevoked) wTok ≠
          (.ok out, st2) :=
  (revocation_terminal wCfg (.logoutOp wTok) wStRevoked).2 wTok wRecRevoked (by decide) rfl

/-! ### Inversion lemmas for refresh rotation -/

theorem jwtDecode_ok_inv {s : String} {now : Nat} {t : Token} {p : JwtPayload}
    (h : jwtDecode s now t = .ok p) : t = .signed s p ∧ now < p.exp := by
  cases t with
  | malformed m => simp [jwtDecode] at h
  | signed s' p' =>
    simp only [jwtDecode] at h
    by_cases hs : s' ≠ s
    · rw [if_pos hs] at h; cases h
    · rw [if_neg hs] at h
      by_cases he : p'.exp ≤ now
      · rw [if_pos he] at h; cases h
      · rw [if_neg he] at h
        simp only [Except.ok.injEq] at h
        subst h
        rw [not_not] at hs
        subst hs
        exact ⟨rfl, Nat.lt_of_not_le he⟩

theorem revokeList_find?_self {l : List RefreshTokenRec} {t : Token}
    {rec : RefreshTokenRec} (h : l.find? (fun x => x.token == t) = some rec) :
    (revokeList l t).find? (fun x => x.token == t) =
      some { rec with is_revoked := true } := by
  induction l with
  | nil => simp at h
  | cons a as ih =>
    unfold revokeList
    by_cases hc : (a.token == t) = true
    · rw [if_pos hc]
      simp only [List.find?_cons, hc, Option.some_inj] at h
      subst h
      simp only [List.find?_cons]
      rw [hc]
    · have hcf : (a.token == t) = false := by simpa using hc
      rw [if_neg hc]
      simp only [List.find?_cons, hcf] at h
      simp only [List.find?_cons, hcf]
      exact ih h

theorem revokeList_find?_none {l : List RefreshTokenRec} {t t' : Token}
    (h : l.find? (fun x => x.token == t') = none) :
    (revokeList l t).find? (fun x => x.token == t') = none := by
  induction l with
  | nil => rfl
  | cons a as ih =>
    simp only [List.find?_cons] at h
    by_cases ha : (a.token == t') = true
    · rw [ha] at h; cases h
    · have haf : (a.token == t') = false := by simpa using ha
      rw [haf] at h
      unfold revokeList
      by_cases hc : (a.token == t) = true
      · rw [if_pos hc]
        simp only [List.find?_cons]
        rw [haf]
        exact h
      · rw [if_neg hc]
        simp only [List.find?_cons]
        rw [haf]
        exact ih h

theorem find_by_claim_inv {st : AuthState} {v : Option ClaimVal} {u : UserRec}
    (h : find_by_claim st v = some u) :
    ∃ n : Int, v = some (.vint n) ∧ find_by_id st n = some u ∧ u.id = n := by
  match v with
  | none => simp [find_by_claim] at h
  | some (.vstr s) => simp [find_by_claim] at h
  | some (.vint n) =>
    refine ⟨n, rfl, h, ?_⟩
    have := List.find?_some h
    exact eq_of_beq this

/-- Full inversion of a successful refresh: the decoded payload carries a
truthy user-id claim, the store held a live row for the presented token,
the owning user was found, and the post-state revokes the old row and
appends the new one. -/
theorem refresh_ok_elim (cfg : Config) (now : Nat) (jti : String)
    (st : AuthState) (t na nr : Token) (u : UserRec) (st' : AuthState)
    (h : refresh_access_token cfg now jti st t = (.ok (na, nr, u), st')) :
    ∃ (p : JwtPayload) (rec : RefreshTokenRec),
      jwtDecode cfg.jwt_secret now t = .ok p ∧
      optFalsy p.user_id = false ∧
      find_by_token st t = some rec ∧
      rec.is_revoked = false ∧
      find_by_claim st p.user_id = some u ∧
      na = generate_access_token cfg now u ∧
      nr = generate_refresh_token cfg now jti u.id ∧
      st' = createToken (revoke st t) nr u.id (now + refreshTtlSecs cfg) := by
  revert h
  unfold refresh_access_token
  split
  · intro h; simp at h
  · rename_i payload hdec
    split
    · intro h; simp at h
    · rename_i hfalsy
      split
      · intro h; simp at h
      · rename_i rec hfind
        split
        · intro h; simp at h
        · rename_i hrev
          split
          · intro h; simp at h
          · rename_i hexp
            split
            · intro h; simp at h
            · rename_i user huser
              intro h
              simp only [Prod.mk.injEq, Except.ok.injEq] at h
              obtain ⟨⟨hna, hnr, hu⟩, hst⟩ := h
              subst hu
              rw [hnr] at hst
              exact ⟨payload, rec, hdec, by simpa using hfalsy, hfind,
                by simpa using hrev, huser, hna.symm, hnr.symm, hst.symm⟩

/-- C1: Single-use refresh rotation — after one successful `refresh(t)`,
a second `refresh(t)` always fails with the uniform `TokenInvalid` error
(at any later call time), while a refresh presenting only the newly
returned refresh token succeeds as long as its expiry has not passed and
nothing else was revoked in between.  The freshness hypothesis states that
the minted token string (carrying a fresh `jti`) was not already present
in the store. -/
theorem refresh_single_use (cfg : Config) (now : Nat) (jti : String)
    (st : AuthState) (t na nr : Token) (u : UserRec) (st' : AuthState)
    (h : refresh_access_token cfg now jti st t = (.ok (na, nr, u), st'))
    (hfresh : find_by_token st nr = none) :
    (∀ (now2 : Nat) (jti2 : String),
      (refresh_access_token cfg now2 jti2 st' t).1 =
        .error (.valueError jpTokenInvalid)) ∧
    (∀ (now2 : Nat) (jti2 : String), now2 < now + refreshTtlSecs cfg →
      ∃ out, (refresh_access_token cfg now2 jti2 st' nr).1 = .ok out) := by
  obtain ⟨p, rec, hdec, hfalsy, hfind, hrev, huser, hna, hnr, hst⟩ :=
    refresh_ok_elim cfg now jti st t na nr u st' h
  obtain ⟨n, hpid, hfid, huid⟩ := find_by_claim_inv huser
  have hn0 : (n == (0 : Int)) = false := by
    rw [hpid] at hfalsy
    simpa [optFalsy, ClaimVal.falsy] using hfalsy
  have hun0 : u.id ≠ 0 := by
    rw [huid]
    exact beq_eq_false_iff_ne.mp hn0
  obtain ⟨hsig, _⟩ := jwtDecode_ok_inv hdec
  have hfind' : find_by_token st' t = some { rec with is_revoked := true } := by
    rw [hst]
    unfold find_by_token createToken revoke
    dsimp only
    rw [List.find?_append, revokeList_find?_self hfind]
    rfl
  constructor
  · intro now2 jti2
    cases hd2 : jwtDecode cfg.jwt_secret now2 t with
    | error e2 => simp [refresh_access_token, hd2]
    | ok p2 =>
      have hp2 : p2 = p := by
        rw [hsig] at hd2
        simp only [jwtDecode] at hd2
        rw [if_neg (by simp)] at hd2
        by_cases hex : p.exp ≤ now2
        · rw [if_pos hex] at hd2; cases hd2
        · rw [if_neg hex] at hd2
          simp only [Except.ok.injEq] at hd2
          exact hd2.symm
      subst hp2
      simp [refresh_access_token, hd2, hfalsy, hfind']
  · intro now2 jti2 hlt2
    have hdec2 : jwtDecode cfg.jwt_secret now2 nr =
        .ok { user_id := some (.vint u.id), email := none, role := none,
              jti := some jti, exp := now + refreshTtlSecs cfg } := by
      rw [hnr]
      simp only [generate_refresh_token, jwtEncode, jwtDecode]
      rw [if_neg (by simp)]
      rw [if_neg (Nat.not_le.mpr hlt2)]
    have hfalsy2 : optFalsy (some (.vint u.id)) = false := by
      simpa [optFalsy, ClaimVal.falsy] using beq_eq_false_iff_ne.mpr hun0
    have hfindnr : find_by_token st' nr =
        some { token := nr, user_id := u.id,
               expires_at := now + refreshTtlSecs cfg, is_revoked := false } := by
      rw [hst]
      unfold find_by_token createToken revoke
      dsimp only
      rw [List.find?_append, revokeList_find?_none hfresh, Option.none_or]
      simp [List.find?_cons]
    have hexp2 : ¬(now + refreshTtlSecs cfg < now2) := Nat.not_lt.mpr (Nat.le_of_lt hlt2)
    have huser2 : find_by_claim st' (some (.vint u.id)) = some u := by
      rw [hst]
      show find_by_id st u.id = some u
      rw [huid]
      exact hfid
    refine ⟨(generate_access_token cfg now2 u, generate_refresh_token cfg now2 jti2 u.id, u), ?_⟩
    simp [refresh_access_token, hdec2, hfalsy2, hfindnr, hexp2, huser2]

/-- Witness for C1: refresh `wTok` at time 1, then the replayed old token
fails with `TokenInvalid` at time 2. -/
theorem refresh_single_use_witness :
    (refresh_access_token wCfg 2 "j2"
      (refresh_access_token wCfg 1 "j1" wSt wTok).2 wTok).1 =
      .error (.valueError jpTokenInvalid) :=
  (refresh_single_use wCfg 1 "j1" wSt wTok
    (generate_access_token wCfg 1 wUser) (generate_refresh_token wCfg 1 "j1" 1) wUser
    (refresh_access_token wCfg 1 "j1" wSt wTok).2 (by decide) (by decide)).1 2 "j2"

end FullstackApp
